import Mathlib

/-!
Verification of the document-indexing and retrieval pipeline of the RAG
command tool (`src/config.py`, `src/vector_store.py`,
`src/commands/index_command.py`).

The vector database (PGVector) is an external collaborator accessed through a
narrow interface (`similarity_search`, `add_documents`); it is embedded here as
an explicit store state (a list of records plus a failure flag modelling a
raised backend exception), and each manager operation is a pure function from
the store state to results, the updated store, and the trace of store calls it
performed.  The PDF loader and the text splitter are likewise external; their
composite output for a given path is passed in as the `chunksOf` parameter.
-/

namespace Rag

/-- An indexed record persisted in the vector store: chunk text plus the
`source` metadata tag (`{"source": pdf_path}` in `vector_store.py`). -/
structure Record where
  content : String
  source : String
deriving DecidableEq, Repr

/-- State of the external PGVector collection: the persisted records, and a
flag modelling the backend raising an exception on a query
(the `except Exception` paths in `vector_store.py`). -/
structure Store where
  records : List Record
  queryFails : Bool
deriving DecidableEq, Repr

/-- A call made against the vector store, recorded so that theorems can speak
about which store operations an index call performs. -/
inductive StoreOp where
  | query (source : String) (k : Nat)
  | search (q : String) (k : Nat)
  | add (n : Nat)
deriving DecidableEq, Repr

/-- The typed failures the Python code can raise: `FileNotFoundError` from
`index_pdf`, the `ValueError` from `VectorStoreManager.__init__` when
`validate_config` fails, and the `ValueError` the external
`RecursiveCharacterTextSplitter` constructor raises when
`chunk_overlap > chunk_size`. -/
inductive RagError where
  | notFound (path : String)
  | configInvalid
  | splitterOverlapTooLarge
deriving DecidableEq, Repr

/-- `PGVector.similarity_search(query, k, filter={"source": source})`: the
backend returns at most `k` records whose metadata matches the filter, or
raises if the backend is failing.  Order is irrelevant to the callers below,
which only count the results. -/
def similarity_search_filter (st : Store) (source : String) (k : Nat) :
    Except Unit (List Record) :=
  if st.queryFails then .error ()
  else .ok ((st.records.filter (fun r => r.source == source)).take k)

/-- `PGVector.similarity_search(query, k)` without a filter: the backend
returns the `k` records nearest to the query, in non-increasing similarity
order.  `sim` is the backend's similarity score of a record against a query. -/
def similarity_search_scored (sim : String → Record → Nat) (st : Store)
    (q : String) (k : Nat) : Except Unit (List Record) :=
  if st.queryFails then .error ()
  else .ok ((st.records.mergeSort (fun a b => decide (sim q b ≤ sim q a))).take k)

/-- `os.path.basename`. -/
def basename (path : String) : String :=
  ((path.splitOn "/").getLast?).getD path

/-- The dictionary returned by `VectorStoreManager.get_document_info`. -/
structure DocInfo where
  exists_ : Bool
  chunks_count : Nat
  filename : String
deriving DecidableEq, Repr

/-- `VectorStoreManager.get_document_info` (vector_store.py lines 58-84): a
`k=100` filtered similarity search; on a backend exception the error is caught
and the document reported as absent with zero chunks. -/
def get_document_info (st : Store) (pdf_path : String) : DocInfo × List StoreOp :=
  match similarity_search_filter st pdf_path 100 with
  | .ok docs =>
      ({ exists_ := decide (0 < docs.length), chunks_count := docs.length,
         filename := basename pdf_path }, [.query pdf_path 100])
  | .error _ =>
      ({ exists_ := false, chunks_count := 0, filename := basename pdf_path },
       [.query pdf_path 100])

/-- `VectorStoreManager.check_document_exists` (vector_store.py lines 37-56):
a `k=1` filtered search; a backend exception is caught and reported as
`False`. -/
def check_document_exists (st : Store) (pdf_path : String) : Bool × List StoreOp :=
  match similarity_search_filter st pdf_path 1 with
  | .ok docs => (decide (0 < docs.length), [.query pdf_path 1])
  | .error _ => (false, [.query pdf_path 1])

/-- `VectorStoreManager.remove_document` (vector_store.py lines 86-112): a
`k=1000` filtered search; if any record matches it prints a removal message and
returns `True`, but never issues a delete against the backend, so the store is
returned unchanged. -/
def remove_document (st : Store) (pdf_path : String) :
    Bool × Store × List StoreOp :=
  match similarity_search_filter st pdf_path 1000 with
  | .ok docs => (decide (0 < docs.length), st, [.query pdf_path 1000])
  | .error _ => (false, st, [.query pdf_path 1000])

/-- `VectorStoreManager.index_pdf` (vector_store.py lines 114-162).
`fs` is `os.path.exists`; `chunksOf` is the composite of `PyPDFLoader.load`
and `text_splitter.split_documents` on the file at a path.  Returns the
result (chunk count or raised error), the updated store, and the trace of
store calls. -/
def index_pdf (fs : String → Bool) (chunksOf : String → List String)
    (st : Store) (pdf_path : String) (force : Bool) :
    Except RagError Nat × Store × List StoreOp :=
  if fs pdf_path = false then (.error (.notFound pdf_path), st, [])
  else
    let infoOps := get_document_info st pdf_path
    let doc_info := infoOps.1
    if doc_info.exists_ && !force then
      (.ok doc_info.chunks_count, st, infoOps.2)
    else
      let removed :=
        if doc_info.exists_ && force then remove_document st pdf_path
        else (false, st, [])
      let chunks := chunksOf pdf_path
      let newRecords := chunks.map (fun c => { content := c, source := pdf_path })
      (.ok chunks.length,
       { removed.2.1 with records := removed.2.1.records ++ newRecords },
       infoOps.2 ++ removed.2.2 ++ [.add chunks.length])

/-- Number of records in the store tagged with a given source. -/
def countSource (st : Store) (source : String) : Nat :=
  (st.records.filter (fun r => r.source == source)).length

/-- `Config`: the recognized options of `src/config.py`.  The two required
credentials are `Option String` so that an unset environment variable is
`none`; Python's falsy test also treats the empty string as missing. -/
structure Config where
  OPENAI_API_KEY : Option String
  POSTGRES_PASSWORD : Option String
  CHUNK_SIZE : Nat
  CHUNK_OVERLAP : Nat
  SEARCH_K : Nat
deriving DecidableEq, Repr

/-- Python truthiness of an optional string: `None` and `""` are falsy. -/
def truthy : Option String → Bool
  | none => false
  | some s => !(s == "")

/-- `Config.validate_config` (config.py lines 37-53): checks only that
`OPENAI_API_KEY` and `POSTGRES_PASSWORD` are present. -/
def validate_config (cfg : Config) : Bool :=
  truthy cfg.OPENAI_API_KEY && truthy cfg.POSTGRES_PASSWORD

/-- `VectorStoreManager.__init__` (vector_store.py lines 13-35): raises
`ValueError` when `validate_config` fails; then constructs the external
`RecursiveCharacterTextSplitter`, whose constructor (in the langchain library,
outside this repository) raises `ValueError` when `chunk_overlap > chunk_size`
and accepts every other parameter combination. -/
def mkVectorStoreManager (cfg : Config) : Except RagError Unit :=
  if validate_config cfg = false then .error .configInvalid
  else if cfg.CHUNK_SIZE < cfg.CHUNK_OVERLAP then .error .splitterOverlapTooLarge
  else .ok ()

/-- `VectorStoreManager.search_similar` (vector_store.py lines 164-184):
`k = k or Config.SEARCH_K` (so `None` and `0` both fall back to the configured
default), then an unfiltered similarity search; a backend exception is
re-raised. -/
def search_similar (sim : String → Record → Nat) (cfg : Config) (st : Store)
    (q : String) (k : Option Nat) : Except Unit (List Record) :=
  let keff : Nat :=
    match k with
    | none => cfg.SEARCH_K
    | some n => if n == 0 then cfg.SEARCH_K else n
  similarity_search_scored sim st q keff

/-- Python `pdf_path.lower().endswith('.pdf')` (index_command.py line 28),
rendered over the character sequence so that it evaluates inside the kernel:
lowercase every character, then compare the last four characters with
`.pdf`. -/
def lowerEndsWithPdf (p : String) : Bool :=
  (p.data.map Char.toLower).reverse.take 4 == ".pdf".data.reverse

/-- The distinct rejection branches of `IndexCommand.validate`
(index_command.py lines 16-32), one per printed diagnostic: no path given,
path does not exist, path does not end in `.pdf`. -/
inductive ValidationFailure where
  | missingPath
  | fileNotFound (p : String)
  | notAPdf (p : String)
deriving DecidableEq, Repr

/-- `IndexCommand.validate` (index_command.py lines 16-32): rejects a missing
or empty path, a path that does not exist, and a path not ending in `.pdf`
(case-insensitively); the last branch is the unsupported-format rejection
("Arquivo deve ser um PDF"). -/
def IndexCommand_validate (fs : String → Bool) (pdf_path : Option String) :
    Except ValidationFailure Unit :=
  match pdf_path with
  | none => .error .missingPath
  | some p =>
    if p == "" then .error .missingPath
    else if fs p = false then .error (.fileNotFound p)
    else if lowerEndsWithPdf p = false then .error (.notAPdf p)
    else .ok ()

/-- The dictionary returned by `IndexCommand.execute`. -/
structure CommandResult where
  success : Bool
  chunks_count : Option Nat
  error : Option String
deriving DecidableEq, Repr

/-- `IndexCommand.execute` (index_command.py lines 34-63): validation failure
yields `{"success": False, "error": "Parâmetros inválidos"}` without touching
the store; otherwise `index_pdf` runs, and an exception it raises is caught
into a failure result. -/
def IndexCommand_execute (fs : String → Bool) (chunksOf : String → List String)
    (st : Store) (pdf_path : Option String) (force : Bool) :
    CommandResult × Store × List StoreOp :=
  match IndexCommand_validate fs pdf_path, pdf_path with
  | .ok _, some p =>
      match index_pdf fs chunksOf st p force with
      | (.ok n, st', ops) =>
          ({ success := true, chunks_count := some n, error := none }, st', ops)
      | (.error _, st', ops) =>
          ({ success := false, chunks_count := none,
             error := some "Erro ao indexar PDF" }, st', ops)
  | _, _ =>
      ({ success := false, chunks_count := none,
         error := some "Parâmetros inválidos" }, st, [])

end Rag

namespace Rag

/-! ### Helper lemmas -/

/-- When the backend query succeeds, `get_document_info` reports existence of
any record for the source and a chunk count capped at 100. -/
theorem get_document_info_ok (st : Store) (path : String)
    (h : st.queryFails = false) :
    get_document_info st path =
      ({ exists_ := decide (0 < countSource st path),
         chunks_count := min 100 (countSource st path),
         filename := basename path }, [.query path 100]) := by
  have hmin : (0 < min 100 (countSource st path)) ↔ (0 < countSource st path) := by
    omega
  simp [get_document_info, similarity_search_filter, h, countSource,
    List.length_take, decide_eq_decide.mpr hmin]

/-- The no-op path of `index_pdf`: the file exists, the backend works, some
record for the source is present, and `force` is false.  The call returns the
capped count, performs only the duplicate-detection query, and leaves the
store unchanged. -/
theorem index_pdf_noop (fs : String → Bool) (chunksOf : String → List String)
    (st : Store) (path : String) (hex : fs path = true)
    (hf : st.queryFails = false) (hpos : 0 < countSource st path) :
    index_pdf fs chunksOf st path false =
      (.ok (min 100 (countSource st path)), st, [.query path 100]) := by
  simp [index_pdf, hex, get_document_info_ok st path hf, hpos]

end Rag

namespace Rag

/-! ### Claim C1 -/

/-- A store already holding one record for `doc.pdf`. -/
def c1Store : Store :=
  { records := [{ content := "old chunk", source := "doc.pdf" }], queryFails := false }

/-- `os.path.exists` for a filesystem containing only `doc.pdf`. -/
def c1Fs : String → Bool := fun p => p == "doc.pdf"

/-- Loader/splitter output: reindexing `doc.pdf` now yields two chunks. -/
def c1Chunks : String → List String := fun _ => ["new chunk 1", "new chunk 2"]

/-- C1: after a prior index left one record for `doc.pdf`, calling
`index_pdf(doc.pdf, force=True)` with two new chunks reports 2 chunks but
leaves 3 records tagged with that source — the sum of old and new — because
`remove_document` never deletes the prior records.  This contradicts the
claim that exactly the new chunk count remains. -/
theorem c1_force_reindex_appends_not_replaces :
    (index_pdf c1Fs c1Chunks c1Store "doc.pdf" true).1 = .ok 2 ∧
    countSource (index_pdf c1Fs c1Chunks c1Store "doc.pdf" true).2.1 "doc.pdf" = 3 :=
  ⟨rfl, by decide⟩

/-! ### Claim C2 -/

/-- A store holding 101 records for `doc2.pdf`. -/
def c2Store : Store :=
  { records := List.replicate 101 { content := "c2", source := "doc2.pdf" },
    queryFails := false }

/-- C2 counterexample: a document with 101 existing records; the `force=False`
call returns 100, not the existing record count 101, because the duplicate
check queries with `k=100`. -/
theorem c2_counterexample_count_capped :
    countSource c2Store "doc2.pdf" = 101 ∧
    (index_pdf (fun p => p == "doc2.pdf") (fun _ => ["x"]) c2Store "doc2.pdf" false).1 =
      .ok 100 :=
  ⟨by decide, rfl⟩

/-- C2 (amended): for a document with at least one existing record, a working
backend, and an existing file, `index_pdf(path, force=False)` returns
`min 100 count` — the size of the `k=100` duplicate-detection query result —
performs only that query (writes nothing), and leaves the store unchanged;
repeated calls therefore return the same value. -/
theorem c2_amended_noop_returns_min_count_100 (fs : String → Bool)
    (chunksOf : String → List String) (st : Store) (path : String)
    (hex : fs path = true) (hf : st.queryFails = false)
    (hpos : 0 < countSource st path) :
    index_pdf fs chunksOf st path false =
      (.ok (min 100 (countSource st path)), st, [.query path 100]) :=
  index_pdf_noop fs chunksOf st path hex hf hpos

/-- Witness for the amended C2: a store with two records for `w2.pdf`; the
no-op call returns 2 and leaves the store untouched. -/
theorem c2_amended_noop_returns_min_count_100_witness :
    index_pdf (fun p => p == "w2.pdf") (fun _ => ["a", "b", "c"])
      { records := [{ content := "u", source := "w2.pdf" },
                    { content := "v", source := "w2.pdf" }], queryFails := false }
      "w2.pdf" false =
      (.ok (min 100 (countSource
        { records := [{ content := "u", source := "w2.pdf" },
                      { content := "v", source := "w2.pdf" }], queryFails := false }
        "w2.pdf")),
       { records := [{ content := "u", source := "w2.pdf" },
                     { content := "v", source := "w2.pdf" }], queryFails := false },
       [.query "w2.pdf" 100]) :=
  c2_amended_noop_returns_min_count_100 (fun p => p == "w2.pdf")
    (fun _ => ["a", "b", "c"])
    { records := [{ content := "u", source := "w2.pdf" },
                  { content := "v", source := "w2.pdf" }], queryFails := false }
    "w2.pdf" rfl rfl (by decide)

/-! ### Claim C3 -/

/-- A store holding one record for `doc3.pdf`. -/
def c3Store : Store :=
  { records := [{ content := "chunk", source := "doc3.pdf" }], queryFails := false }

/-- C3: on a store holding a record for `doc3.pdf`, `remove_document` returns
`True` (reported success) while the store still holds the matching record, and
its return type has no failure case at all: the backing store's inability to
delete by filter is never surfaced as an `UnsupportedOperationError` — the
operation silently reports success leaving the records in place. -/
theorem c3_remove_document_silent_success :
    remove_document c3Store "doc3.pdf" = (true, c3Store, [.query "doc3.pdf" 1000]) ∧
    countSource c3Store "doc3.pdf" = 1 :=
  ⟨rfl, by decide⟩

/-! ### Claim C5 -/

/-- C5: when the path does not exist on the filesystem, `index_pdf` fails with
the not-found error, the store is unchanged, and the trace of vector-store
calls is empty — the store is neither queried nor written. -/
theorem c5_missing_file_no_store_calls (fs : String → Bool)
    (chunksOf : String → List String) (st : Store) (path : String) (force : Bool)
    (h : fs path = false) :
    index_pdf fs chunksOf st path force = (.error (.notFound path), st, []) := by
  simp [index_pdf, h]

/-- Witness for C5: an empty filesystem, a concrete store and path. -/
theorem c5_missing_file_no_store_calls_witness :
    index_pdf (fun _ => false) (fun _ => ["x"])
      { records := [], queryFails := false } "/no/such/file.pdf" false =
      (.error (.notFound "/no/such/file.pdf"), { records := [], queryFails := false },
       []) :=
  c5_missing_file_no_store_calls (fun _ => false) (fun _ => ["x"])
    { records := [], queryFails := false } "/no/such/file.pdf" false rfl

/-! ### Claim C10 -/

/-- C10: for a document with more than 100 indexed records, the no-op path of
`index_pdf` (already indexed, `force=False`) reports exactly 100 chunks —
strictly less than the true record count — because `get_document_info` counts
via a `k=100` similarity search.  The store is left unchanged. -/
theorem c10_noop_chunk_count_capped_at_100 (fs : String → Bool)
    (chunksOf : String → List String) (st : Store) (path : String)
    (hex : fs path = true) (hf : st.queryFails = false)
    (h100 : 100 < countSource st path) :
    (index_pdf fs chunksOf st path false).1 = .ok 100 ∧
    (index_pdf fs chunksOf st path false).2.1 = st ∧
    100 < countSource st path := by
  have h := index_pdf_noop fs chunksOf st path hex hf (by omega)
  rw [h]
  exact ⟨by rw [Nat.min_eq_left (by omega)], rfl, h100⟩

/-- Witness for C10: a store with 101 records for `big.pdf`. -/
theorem c10_noop_chunk_count_capped_at_100_witness :
    (index_pdf (fun p => p == "big.pdf") (fun _ => ["x"])
      { records := List.replicate 101 { content := "c", source := "big.pdf" },
        queryFails := false } "big.pdf" false).1 = .ok 100 ∧
    (index_pdf (fun p => p == "big.pdf") (fun _ => ["x"])
      { records := List.replicate 101 { content := "c", source := "big.pdf" },
        queryFails := false } "big.pdf" false).2.1 =
      { records := List.replicate 101 { content := "c", source := "big.pdf" },
        queryFails := false } ∧
    100 < countSource
      { records := List.replicate 101 { content := "c", source := "big.pdf" },
        queryFails := false } "big.pdf" :=
  c10_noop_chunk_count_capped_at_100 (fun p => p == "big.pdf") (fun _ => ["x"])
    { records := List.replicate 101 { content := "c", source := "big.pdf" },
      queryFails := false } "big.pdf" rfl rfl (by decide)

end Rag

namespace Rag

/-! ### Claim C4 -/

/-- C4: for every query and every `k > 0`, on a working backend
`search_similar` returns at most `k` results, pairwise ordered by
non-increasing similarity score, and on an empty collection it returns the
empty list rather than an error. -/
theorem c4_search_bounds (sim : String → Record → Nat) (cfg : Config)
    (st : Store) (q : String) (k : Nat) (hk : 0 < k)
    (hf : st.queryFails = false) :
    ∃ l, search_similar sim cfg st q (some k) = .ok l ∧ l.length ≤ k ∧
      l.Pairwise (fun a b => sim q b ≤ sim q a) ∧
      (st.records = [] → l = []) := by
  have hkeff : (k == 0) = false := by simp; omega
  refine ⟨(st.records.mergeSort (fun a b => decide (sim q b ≤ sim q a))).take k,
    ?_, ?_, ?_, ?_⟩
  · simp [search_similar, similarity_search_scored, hf, hkeff]
  · simp [List.length_take, List.length_mergeSort]
  · have htrans : ∀ a b c : Record,
        (fun a b => decide (sim q b ≤ sim q a)) a b = true →
        (fun a b => decide (sim q b ≤ sim q a)) b c = true →
        (fun a b => decide (sim q b ≤ sim q a)) a c = true := by
      intro a b c hab hbc
      simp at hab hbc ⊢
      omega
    have htotal : ∀ a b : Record,
        ((fun a b => decide (sim q b ≤ sim q a)) a b ||
         (fun a b => decide (sim q b ≤ sim q a)) b a) = true := by
      intro a b
      simp
      omega
    have hs := @List.sorted_mergeSort Record
      (fun a b => decide (sim q b ≤ sim q a)) htrans htotal st.records
    have hs' : (st.records.mergeSort
        (fun a b => decide (sim q b ≤ sim q a))).Pairwise
        (fun a b => sim q b ≤ sim q a) :=
      hs.imp (fun h => of_decide_eq_true h)
    exact hs'.sublist (List.take_sublist ..)
  · intro h
    simp [h]

/-- Witness for C4: a two-record collection, query scored by content length,
`k = 1`. -/
theorem c4_search_bounds_witness :
    ∃ l, search_similar (fun _ r => r.content.length)
      { OPENAI_API_KEY := some "sk", POSTGRES_PASSWORD := some "pw",
        CHUNK_SIZE := 500, CHUNK_OVERLAP := 50, SEARCH_K := 3 }
      { records := [{ content := "aa", source := "a.pdf" },
                    { content := "b", source := "a.pdf" }], queryFails := false }
      "query" (some 1) = .ok l ∧ l.length ≤ 1 ∧
      l.Pairwise (fun a b =>
        (fun _ r => r.content.length) "query" b ≤
        (fun _ r => r.content.length) "query" a) ∧
      (({ records := [{ content := "aa", source := "a.pdf" },
                      { content := "b", source := "a.pdf" }],
          queryFails := false } : Store).records = [] → l = []) :=
  c4_search_bounds (fun _ r => r.content.length)
    { OPENAI_API_KEY := some "sk", POSTGRES_PASSWORD := some "pw",
      CHUNK_SIZE := 500, CHUNK_OVERLAP := 50, SEARCH_K := 3 }
    { records := [{ content := "aa", source := "a.pdf" },
                  { content := "b", source := "a.pdf" }], queryFails := false }
    "query" 1 (by decide) rfl

end Rag

namespace Rag

/-! ### Claim C6 -/

/-- C6: for an existing file whose (lowercased) name does not end in `.pdf`,
`IndexCommand.validate` rejects with the unsupported-format branch
("Arquivo deve ser um PDF") and `IndexCommand.execute` returns a failure
result without performing any vector-store call or indexing. -/
theorem c6_unsupported_format_rejected (fs : String → Bool)
    (chunksOf : String → List String) (st : Store) (p : String)
    (hne : (p == "") = false) (hex : fs p = true)
    (hpdf : lowerEndsWithPdf p = false) :
    IndexCommand_validate fs (some p) = .error (.notAPdf p) ∧
    IndexCommand_execute fs chunksOf st (some p) false =
      ({ success := false, chunks_count := none,
         error := some "Parâmetros inválidos" }, st, []) := by
  have hv : IndexCommand_validate fs (some p) = .error (.notAPdf p) := by
    simp [IndexCommand_validate, hne, hex, hpdf]
  exact ⟨hv, by simp [IndexCommand_execute, hv]⟩

/-- Witness for C6: `notes.txt` exists but is not a PDF. -/
theorem c6_unsupported_format_rejected_witness :
    IndexCommand_validate (fun x => x == "notes.txt") (some "notes.txt") =
      .error (.notAPdf "notes.txt") ∧
    IndexCommand_execute (fun x => x == "notes.txt") (fun _ => [])
      { records := [], queryFails := false } (some "notes.txt") false =
      ({ success := false, chunks_count := none,
         error := some "Parâmetros inválidos" },
       { records := [], queryFails := false }, []) :=
  c6_unsupported_format_rejected (fun x => x == "notes.txt") (fun _ => [])
    { records := [], queryFails := false } "notes.txt" (by decide) rfl (by decide)

/-! ### Claim C7 -/

/-- A configuration with valid credentials whose chunk overlap equals its
chunk size, violating the chunker precondition `chunk_overlap < chunk_size`. -/
def c7Cfg : Config :=
  { OPENAI_API_KEY := some "sk-test", POSTGRES_PASSWORD := some "pw",
    CHUNK_SIZE := 50, CHUNK_OVERLAP := 50, SEARCH_K := 3 }

/-- C7 counterexample: a configuration with `chunk_overlap = chunk_size = 50`
violates the chunker precondition, yet `validate_config` accepts it and
`VectorStoreManager.__init__` succeeds: no configuration error occurs at
startup. -/
theorem c7_counterexample_no_startup_error :
    ¬ (c7Cfg.CHUNK_OVERLAP < c7Cfg.CHUNK_SIZE) ∧
    validate_config c7Cfg = true ∧
    mkVectorStoreManager c7Cfg = .ok () :=
  ⟨by decide, by decide, rfl⟩

/-- C7 (amended): startup validation checks only the presence of the required
credentials; every configuration with present credentials and
`chunk_overlap ≤ chunk_size` initializes without error, including those that
violate the chunker preconditions (`chunk_overlap = chunk_size`, or
`chunk_size = 0`).  Only `chunk_overlap > chunk_size` is rejected, and by the
external splitter library rather than the repository's validation. -/
theorem c7_amended_startup_checks_credentials_only (cfg : Config)
    (h1 : validate_config cfg = true)
    (h2 : cfg.CHUNK_OVERLAP ≤ cfg.CHUNK_SIZE) :
    mkVectorStoreManager cfg = .ok () := by
  simp [mkVectorStoreManager, h1, Nat.not_lt.mpr h2]

/-- Witness for the amended C7: the precondition-violating configuration with
equal overlap and size passes startup. -/
theorem c7_amended_startup_checks_credentials_only_witness :
    mkVectorStoreManager c7Cfg = .ok () :=
  c7_amended_startup_checks_credentials_only c7Cfg (by decide) (by decide)

/-! ### Claim C8 -/

/-- A store holding one record for `doc8.pdf` whose backend raises on every
query. -/
def c8Store : Store :=
  { records := [{ content := "old", source := "doc8.pdf" }], queryFails := true }

/-- C8 counterexample: the backend raises during the duplicate-detection query
of an index call, yet `index_pdf` returns success (`ok 2`) and writes the new
records (3 records for the source afterwards): the collaborator's error is
swallowed and the call continues as if the query had succeeded. -/
theorem c8_counterexample_query_failure_swallowed :
    (index_pdf (fun p => p == "doc8.pdf") (fun _ => ["n1", "n2"]) c8Store
      "doc8.pdf" false).1 = .ok 2 ∧
    countSource (index_pdf (fun p => p == "doc8.pdf") (fun _ => ["n1", "n2"])
      c8Store "doc8.pdf" false).2.1 "doc8.pdf" = 3 :=
  ⟨rfl, by decide⟩

/-- C8 (amended): a vector-store failure during `search_similar` propagates to
the caller as an error, but a store failure during the duplicate-detection
query of an index call is swallowed: `get_document_info` reports the document
as absent and `index_pdf` proceeds to write the new records as if the query
had succeeded. -/
theorem c8_amended_failure_propagation (sim : String → Record → Nat)
    (cfg : Config) (fs : String → Bool) (chunksOf : String → List String)
    (st : Store) (path q : String) (k : Option Nat)
    (hfail : st.queryFails = true) (hex : fs path = true) :
    search_similar sim cfg st q k = .error () ∧
    index_pdf fs chunksOf st path false =
      (.ok (chunksOf path).length,
       { records := st.records ++
           (chunksOf path).map (fun c => { content := c, source := path }),
         queryFails := true },
       [.query path 100, .add (chunksOf path).length]) := by
  obtain ⟨recs, qf⟩ := st
  simp only [Store.queryFails] at hfail
  subst hfail
  constructor
  · simp [search_similar, similarity_search_scored]
  · simp [index_pdf, hex, get_document_info, similarity_search_filter]

/-- Witness for the amended C8: the failing store of the counterexample, a
trivial similarity score, and concrete chunks. -/
theorem c8_amended_failure_propagation_witness :
    search_similar (fun _ _ => 0)
      { OPENAI_API_KEY := some "sk", POSTGRES_PASSWORD := some "pw",
        CHUNK_SIZE := 500, CHUNK_OVERLAP := 50, SEARCH_K := 3 }
      c8Store "q" none = .error () ∧
    index_pdf (fun p => p == "doc8.pdf") (fun _ => ["n1", "n2"]) c8Store
      "doc8.pdf" false =
      (.ok (["n1", "n2"] : List String).length,
       { records := c8Store.records ++
           (["n1", "n2"] : List String).map
             (fun c => { content := c, source := "doc8.pdf" }),
         queryFails := true },
       [.query "doc8.pdf" 100, .add (["n1", "n2"] : List String).length]) :=
  c8_amended_failure_propagation (fun _ _ => 0)
    { OPENAI_API_KEY := some "sk", POSTGRES_PASSWORD := some "pw",
      CHUNK_SIZE := 500, CHUNK_OVERLAP := 50, SEARCH_K := 3 }
    (fun p => p == "doc8.pdf") (fun _ => ["n1", "n2"]) c8Store "doc8.pdf" "q"
    none rfl rfl

/-! ### Claim C9 -/

/-- C9: `search_similar` with `k = 0` behaves exactly like an unspecified `k`
(the Python default expression `k or Config.SEARCH_K` treats `0` as falsy):
both fall back to the configured `SEARCH_K`, and with a positive `SEARCH_K`
and a non-empty collection the call returns a non-empty result — a caller can
never request exactly zero results. -/
theorem c9_k_zero_falls_back_to_search_k (sim : String → Record → Nat)
    (cfg : Config) (st : Store) (q : String) (hk : 0 < cfg.SEARCH_K)
    (hf : st.queryFails = false) (hne : st.records ≠ []) :
    search_similar sim cfg st q (some 0) = search_similar sim cfg st q none ∧
    ∀ l, search_similar sim cfg st q (some 0) = .ok l → l ≠ [] := by
  refine ⟨rfl, ?_⟩
  intro l hl
  simp [search_similar, similarity_search_scored, hf] at hl
  have hlen : l.length = min cfg.SEARCH_K st.records.length := by
    rw [← hl]
    simp [List.length_take, List.length_mergeSort]
  have hpos : 0 < l.length := by
    have := List.length_pos.mpr hne
    omega
  exact List.ne_nil_of_length_pos hpos

/-- Witness for C9: `SEARCH_K = 3`, a one-record collection; the `k = 0` call
equals the default call and cannot return an empty result. -/
theorem c9_k_zero_falls_back_to_search_k_witness :
    search_similar (fun _ _ => 0)
      { OPENAI_API_KEY := some "sk", POSTGRES_PASSWORD := some "pw",
        CHUNK_SIZE := 500, CHUNK_OVERLAP := 50, SEARCH_K := 3 }
      { records := [{ content := "c", source := "a.pdf" }], queryFails := false }
      "q" (some 0) =
      search_similar (fun _ _ => 0)
        { OPENAI_API_KEY := some "sk", POSTGRES_PASSWORD := some "pw",
          CHUNK_SIZE := 500, CHUNK_OVERLAP := 50, SEARCH_K := 3 }
        { records := [{ content := "c", source := "a.pdf" }], queryFails := false }
        "q" none ∧
    ∀ l, search_similar (fun _ _ => 0)
      { OPENAI_API_KEY := some "sk", POSTGRES_PASSWORD := some "pw",
        CHUNK_SIZE := 500, CHUNK_OVERLAP := 50, SEARCH_K := 3 }
      { records := [{ content := "c", source := "a.pdf" }], queryFails := false }
      "q" (some 0) = .ok l → l ≠ [] :=
  c9_k_zero_falls_back_to_search_k (fun _ _ => 0)
    { OPENAI_API_KEY := some "sk", POSTGRES_PASSWORD := some "pw",
      CHUNK_SIZE := 500, CHUNK_OVERLAP := 50, SEARCH_K := 3 }
    { records := [{ content := "c", source := "a.pdf" }], queryFails := false }
    "q" (by decide) rfl (by decide)

end Rag
